import Mathlib

/-!
Verification of the retrieval-and-lead-scoring pipeline of the real-estate
chat bot. Python modules are shallowly embedded: pure functions become Lean
functions over `String`, `List`, `ℚ` and `ℕ`; the external regex engine,
vector index and LLM provider are abstracted as function parameters; Python
dictionary values that can be `None`, an `int` or a `str` are embedded as
the `PyVal` type, with Python truthiness made explicit.
-/

namespace REBot

/-! ### Embedding of Python dictionary values and truthiness -/

/-- Value of a Python metadata field: `None`, an `int`, or a `str`. -/
inductive PyVal where
  | none : PyVal
  | int (n : ℤ) : PyVal
  | str (s : String) : PyVal
deriving DecidableEq

/-- Python truthiness of a `PyVal` (`if page:` style tests). -/
def PyVal.truthy : PyVal → Bool
  | .none => false
  | .int n => n ≠ 0
  | .str s => s ≠ ""

/-! ### Python string primitives

Python's `str.upper()`/`str.lower()` are embedded as per-character case
maps over the string's characters (all constants involved are ASCII, where
this is exactly CPython's behaviour). -/

/-- Python `s.upper()`. -/
def py_upper (s : String) : String := ⟨s.data.map Char.toUpper⟩

/-- Python `s.lower()`. -/
def py_lower (s : String) : String := ⟨s.data.map Char.toLower⟩

/-! ### config.py — default settings values (class Settings) -/

/-- Default of `Settings.SIMILARITY_THRESHOLD` in config.py. -/
def SIMILARITY_THRESHOLD : ℚ := 7/10

/-- Default of `Settings.INTENT_MEDIUM_THRESHOLD` in config.py. -/
def INTENT_MEDIUM_THRESHOLD : ℚ := 6/10

/-- Default of `Settings.INTENT_HIGH_THRESHOLD` in config.py. -/
def INTENT_HIGH_THRESHOLD : ℚ := 8/10

/-! ### lead/detector.py — signal detection

The Python `re` module is external; each detector keeps the source's
pattern list and delegates the single-pattern test to an abstract
`re_search : pattern → text → Bool` parameter. -/

/-- Patterns of `detect_budget_mention`. -/
def budget_keywords : List String :=
  ["\\$[\\d,]+", "aed[\\s]?[\\d,]+", "budget", "price", "cost",
   "afford", "million", "thousand", "payment", "financing"]

/-- Patterns of `detect_specific_requirements`. -/
def requirement_keywords : List String :=
  ["\\d+\\s*bedroom", "\\d+br", "pool", "garden", "parking",
   "sqm", "square", "layout", "master bedroom", "ensuite",
   "maid room", "storage", "terrace", "balcony"]

/-- Patterns of `detect_timeline`. -/
def timeline_keywords : List String :=
  ["soon", "urgently", "asap", "immediately", "next month",
   "by\\s+\\w+", "looking to move", "need by", "within",
   "this year", "next year", "\\d+\\s*months?"]

/-- Patterns of `detect_location_preference`. -/
def location_keywords : List String :=
  ["dubai", "festival city", "al badia", "area", "location",
   "neighborhood", "near", "close to", "proximity"]

/-- Patterns of `detect_luxury_interest`. -/
def luxury_keywords : List String :=
  ["luxury", "premium", "high-end", "upscale", "exclusive",
   "pool", "golf", "spa", "gym", "clubhouse"]

/-- Patterns of `detect_comparison_intent`. -/
def comparison_keywords : List String :=
  ["compare", "versus", "vs", "difference", "better",
   "which one", "or", "between"]

/-- Patterns of `detect_purchase_questions`. -/
def purchase_keywords : List String :=
  ["how to buy", "purchase", "documentation", "paperwork",
   "mortgage", "loan", "financing", "down payment",
   "process", "steps", "requirements"]

/-- Patterns of `detect_viewing_interest`. -/
def viewing_keywords : List String :=
  ["visit", "view", "see", "tour", "show", "schedule",
   "appointment", "when can", "available to see"]

/-- Patterns of `detect_current_situation`. -/
def situation_keywords : List String :=
  ["currently", "renting", "selling", "own", "living in",
   "lease", "tenant", "landlord", "moving from"]

/-- `detect_budget_mention(text)`: any pattern matches. -/
def detect_budget_mention (re_search : String → String → Bool) (text : String) : Bool :=
  budget_keywords.any (fun pattern => re_search pattern text)

/-- `detect_specific_requirements(text)`. -/
def detect_specific_requirements (re_search : String → String → Bool) (text : String) : Bool :=
  requirement_keywords.any (fun pattern => re_search pattern text)

/-- `detect_timeline(text)`. -/
def detect_timeline (re_search : String → String → Bool) (text : String) : Bool :=
  timeline_keywords.any (fun pattern => re_search pattern text)

/-- `detect_location_preference(text)`. -/
def detect_location_preference (re_search : String → String → Bool) (text : String) : Bool :=
  location_keywords.any (fun pattern => re_search pattern text)

/-- `detect_luxury_interest(text)`. -/
def detect_luxury_interest (re_search : String → String → Bool) (text : String) : Bool :=
  luxury_keywords.any (fun pattern => re_search pattern text)

/-- `detect_comparison_intent(text)`. -/
def detect_comparison_intent (re_search : String → String → Bool) (text : String) : Bool :=
  comparison_keywords.any (fun pattern => re_search pattern text)

/-- `detect_purchase_questions(text)`. -/
def detect_purchase_questions (re_search : String → String → Bool) (text : String) : Bool :=
  purchase_keywords.any (fun pattern => re_search pattern text)

/-- `detect_viewing_interest(text)`. -/
def detect_viewing_interest (re_search : String → String → Bool) (text : String) : Bool :=
  viewing_keywords.any (fun pattern => re_search pattern text)

/-- `detect_current_situation(text)`. -/
def detect_current_situation (re_search : String → String → Bool) (text : String) : Bool :=
  situation_keywords.any (fun pattern => re_search pattern text)

/-- `detect_buying_signals(message, conversation_history)`: lowercases the
message, runs the nine detectors in order, and collects the tag of each
detector that fires. The history argument is received but never read. -/
def detect_buying_signals (re_search : String → String → Bool)
    (message : String) (conversation_history : List (String × String)) : List String :=
  let _ := conversation_history
  let message_lower := py_lower message
  (if detect_budget_mention re_search message_lower then ["budget_mentioned"] else [])
  ++ (if detect_specific_requirements re_search message_lower then ["specific_requirements"] else [])
  ++ (if detect_timeline re_search message_lower then ["timeline_mentioned"] else [])
  ++ (if detect_location_preference re_search message_lower then ["location_preference"] else [])
  ++ (if detect_luxury_interest re_search message_lower then ["luxury_feature_interest"] else [])
  ++ (if detect_comparison_intent re_search message_lower then ["comparison_intent"] else [])
  ++ (if detect_purchase_questions re_search message_lower then ["purchase_process_inquiry"] else [])
  ++ (if detect_viewing_interest re_search message_lower then ["viewing_interest"] else [])
  ++ (if detect_current_situation re_search message_lower then ["current_situation_shared"] else [])

/-! ### lead/detector.py — intent scoring -/

/-- The `signal_weights` dictionary of `calculate_intent_score`, as a lookup
function; `signal_weights.get(signal, 0.05)` is the default branch. -/
def signal_weights_get (signal : String) : ℚ :=
  if signal = "budget_mentioned" then 15/100
  else if signal = "specific_requirements" then 12/100
  else if signal = "timeline_mentioned" then 15/100
  else if signal = "location_preference" then 8/100
  else if signal = "luxury_feature_interest" then 8/100
  else if signal = "comparison_intent" then 10/100
  else if signal = "purchase_process_inquiry" then 15/100
  else if signal = "viewing_interest" then 20/100
  else if signal = "current_situation_shared" then 10/100
  else 5/100

/-- `calculate_intent_score(signals, conversation_length)`. -/
def calculate_intent_score (signals : List String) (conversation_length : ℕ) : ℚ :=
  let base_score := (signals.map signal_weights_get).sum
  let engagement_bonus := min ((conversation_length : ℚ) * (2/100)) (15/100)
  min (base_score + engagement_bonus) 1

/-- `classify_intent(intent_score)` under the default thresholds. -/
def classify_intent (intent_score : ℚ) : String :=
  if intent_score ≥ INTENT_HIGH_THRESHOLD then "high"
  else if intent_score ≥ INTENT_MEDIUM_THRESHOLD then "medium"
  else "low"

/-- `recommend_action(intent_level, signals)`. -/
def recommend_action (intent_level : String) (signals : List String) : String :=
  if intent_level = "high" then
    if "viewing_interest" ∈ signals then "schedule_viewing_immediately"
    else "capture_contact_and_schedule_callback"
  else if intent_level = "medium" then
    if "specific_requirements" ∈ signals then "show_floorplans_and_qualify"
    else if "comparison_intent" ∈ signals then "provide_comparison_capture_preference"
    else "share_more_details_build_interest"
  else "educate_and_build_interest"

/-- Python `round(x, 2)`: round half to even at two decimal places. -/
def python_round2 (q : ℚ) : ℚ :=
  let y := q * 100
  let f := ⌊y⌋
  let r := y - f
  (if r < 1/2 then (f : ℚ) else if 1/2 < r then (f : ℚ) + 1
   else if Even f then (f : ℚ) else (f : ℚ) + 1) / 100

/-- The dictionary returned by `generate_lead_signals_response`. -/
structure LeadSignals where
  intent : String
  intent_score : ℚ
  signals_detected : List String
  recommended_action : String
  conversation_depth : ℕ
deriving DecidableEq

/-- `generate_lead_signals_response(signals, intent_score, conversation_history)`:
classifies the tier from the unrounded score, reports the score rounded to
two decimals. -/
def generate_lead_signals_response (signals : List String) (intent_score : ℚ)
    (conversation_history : List (String × String)) : LeadSignals :=
  let intent_level := classify_intent intent_score
  let action := recommend_action intent_level signals
  { intent := intent_level
    intent_score := python_round2 intent_score
    signals_detected := signals
    recommended_action := action
    conversation_depth := conversation_history.length }

/-! ### Specification-side definitions for claim C1 (refinement target) -/

/-- Weight table exactly as worded in the specification of claim C1. -/
def spec_signal_weight (tag : String) : ℚ :=
  if tag = "budget_mentioned" then 15/100
  else if tag = "specific_requirements" then 12/100
  else if tag = "timeline_mentioned" then 15/100
  else if tag = "location_preference" then 8/100
  else if tag = "luxury_feature_interest" then 8/100
  else if tag = "comparison_intent" then 10/100
  else if tag = "purchase_process_inquiry" then 15/100
  else if tag = "viewing_interest" then 20/100
  else if tag = "current_situation_shared" then 10/100
  else 5/100

/-- Score formula exactly as worded in claim C1:
`min(W + min(n * 0.02, 0.15), 1.0)` with `W` the sum of the tag weights. -/
def spec_intent_score (signals : List String) (n : ℕ) : ℚ :=
  min ((signals.map spec_signal_weight).sum + min ((n : ℚ) * (2/100)) (15/100)) 1

/-! ### Theorems for claims about the detector -/

/-- Every signal weight is nonnegative. -/
theorem signal_weights_get_nonneg (s : String) : 0 ≤ signal_weights_get s := by
  unfold signal_weights_get
  split_ifs <;> norm_num

/-- The signal-weight sum is nonnegative. -/
theorem base_score_nonneg (signals : List String) :
    0 ≤ (signals.map signal_weights_get).sum := by
  apply List.sum_nonneg
  intro x hx
  obtain ⟨s, _, rfl⟩ := List.mem_map.mp hx
  exact signal_weights_get_nonneg s

/-- Unfolding lemma: the intent score written without let-bindings. -/
theorem calculate_intent_score_eq (signals : List String) (n : ℕ) :
    calculate_intent_score signals n =
      min ((signals.map signal_weights_get).sum + min ((n : ℚ) * (2/100)) (15/100)) 1 := rfl

/-- C1: for every list of signal tags and conversation length n,
`calculate_intent_score signals n` equals `min (W + min (n * 0.02) 0.15) 1`
where `W` is the sum of the fixed per-tag weights of the claim
(0.05 for unrecognized tags). -/
theorem C1_calculate_intent_score_formula (signals : List String) (n : ℕ) :
    calculate_intent_score signals n = spec_intent_score signals n := rfl

/-- C2: under the default thresholds 0.3/0.6/0.8, `classify_intent s` is
"high" iff s ≥ 0.8, "medium" iff 0.6 ≤ s < 0.8, "low" iff s < 0.6, with the
boundary cases 0.8 → "high", 0.7999 → not "high", 0.6 → "medium",
0.29 → "low". -/
theorem C2_classify_intent_boundaries (s : ℚ) :
    (classify_intent s = "high" ↔ 8/10 ≤ s)
    ∧ (classify_intent s = "medium" ↔ 6/10 ≤ s ∧ s < 8/10)
    ∧ (classify_intent s = "low" ↔ s < 6/10)
    ∧ classify_intent (8/10) = "high"
    ∧ classify_intent (7999/10000) ≠ "high"
    ∧ classify_intent (6/10) = "medium"
    ∧ classify_intent (29/100) = "low" := by
  refine ⟨?_, ?_, ?_,
    by unfold classify_intent INTENT_HIGH_THRESHOLD INTENT_MEDIUM_THRESHOLD; norm_num <;> decide,
    by unfold classify_intent INTENT_HIGH_THRESHOLD INTENT_MEDIUM_THRESHOLD; norm_num <;> decide,
    by unfold classify_intent INTENT_HIGH_THRESHOLD INTENT_MEDIUM_THRESHOLD; norm_num <;> decide,
    by unfold classify_intent INTENT_HIGH_THRESHOLD INTENT_MEDIUM_THRESHOLD; norm_num <;> decide⟩ <;>
    unfold classify_intent INTENT_HIGH_THRESHOLD INTENT_MEDIUM_THRESHOLD <;>
    split_ifs with h1 h2 <;> simp_all <;> linarith

/-- C7: the intent score lies in [0,1], is monotone in the conversation
length and in the signal-weight sum, and is constant in n once n ≥ 8
(the engagement bonus saturates at 0.15). -/
theorem C7_intent_score_bounds_monotone (signals : List String) (n : ℕ) :
    0 ≤ calculate_intent_score signals n
    ∧ calculate_intent_score signals n ≤ 1
    ∧ (∀ m : ℕ, n ≤ m → calculate_intent_score signals n ≤ calculate_intent_score signals m)
    ∧ (∀ signals2 : List String,
        (signals.map signal_weights_get).sum ≤ (signals2.map signal_weights_get).sum →
        calculate_intent_score signals n ≤ calculate_intent_score signals2 n)
    ∧ (8 ≤ n → calculate_intent_score signals n = calculate_intent_score signals 8) := by
  have hbase := base_score_nonneg signals
  have hbonus : (0 : ℚ) ≤ min ((n : ℚ) * (2/100)) (15/100) := by
    apply le_min
    · positivity
    · norm_num
  refine ⟨?_, ?_, ?_, ?_, ?_⟩
  · rw [calculate_intent_score_eq]
    apply le_min
    · linarith
    · norm_num
  · rw [calculate_intent_score_eq]
    exact min_le_right _ _
  · intro m hm
    rw [calculate_intent_score_eq, calculate_intent_score_eq]
    have : ((n : ℚ)) ≤ (m : ℚ) := by exact_mod_cast hm
    gcongr
  · intro signals2 hsum
    rw [calculate_intent_score_eq, calculate_intent_score_eq]
    gcongr
  · intro h8
    have hsat : ∀ k : ℕ, 8 ≤ k → min ((k : ℚ) * (2/100)) (15/100) = 15/100 := by
      intro k hk
      apply min_eq_right
      have : (8 : ℚ) ≤ (k : ℚ) := by exact_mod_cast hk
      linarith
    rw [calculate_intent_score_eq, calculate_intent_score_eq, hsat n h8, hsat 8 (le_refl 8)]

/-- C7 witness: the theorem instantiated at signals = ["viewing_interest"],
n = 2 (and 9 for saturation), hypotheses discharged concretely. -/
theorem C7_intent_score_witness :
    0 ≤ calculate_intent_score ["viewing_interest"] 2
    ∧ calculate_intent_score ["viewing_interest"] 2 ≤ calculate_intent_score ["viewing_interest"] 5
    ∧ calculate_intent_score ["viewing_interest"] 2 ≤ calculate_intent_score ["viewing_interest", "budget_mentioned"] 2
    ∧ calculate_intent_score ["viewing_interest"] 9 = calculate_intent_score ["viewing_interest"] 8 :=
  ⟨(C7_intent_score_bounds_monotone ["viewing_interest"] 2).1,
   (C7_intent_score_bounds_monotone ["viewing_interest"] 2).2.2.1 5 (by norm_num),
   (C7_intent_score_bounds_monotone ["viewing_interest"] 2).2.2.2.1
     ["viewing_interest", "budget_mentioned"] (by simp [signal_weights_get]; norm_num),
   (C7_intent_score_bounds_monotone ["viewing_interest"] 9).2.2.2.2 (by norm_num)⟩

/-- C9: `detect_buying_signals` ignores the conversation-history argument:
for any regex engine and any message, any two histories give equal output. -/
theorem C9_detect_signals_history_independent
    (re_search : String → String → Bool) (message : String)
    (h1 h2 : List (String × String)) :
    detect_buying_signals re_search message h1 = detect_buying_signals re_search message h2 := rfl

/-- C10: `generate_lead_signals_response` classifies the tier from the
unrounded score but reports the rounded score: at score 0.7999 the snapshot
reports intent_score 0.8 with tier "medium", while 0.8 itself would
classify as "high". -/
theorem C10_rounded_score_below_tier :
    (7999/10000 : ℚ) < 8/10
    ∧ python_round2 (7999/10000) = 8/10
    ∧ (generate_lead_signals_response [] (7999/10000) []).intent_score = 8/10
    ∧ (generate_lead_signals_response [] (7999/10000) []).intent = "medium"
    ∧ classify_intent (8/10) = "high" := by
  have hf : ⌊(7999/10000 : ℚ) * 100⌋ = 79 := by
    rw [Int.floor_eq_iff]
    norm_num
  have hr : python_round2 (7999/10000) = 8/10 := by
    simp only [python_round2]
    rw [hf]
    norm_num
  have hcl : classify_intent (7999/10000) = "medium" := by
    unfold classify_intent INTENT_HIGH_THRESHOLD INTENT_MEDIUM_THRESHOLD
    norm_num
  refine ⟨by norm_num, hr, ?_, ?_,
    by unfold classify_intent INTENT_HIGH_THRESHOLD INTENT_MEDIUM_THRESHOLD; norm_num <;> decide⟩
  · show python_round2 (7999/10000) = 8/10
    exact hr
  · show classify_intent (7999/10000) = "medium"
    exact hcl

/-! ### utils/session.py — per-session accumulating state

Wall-clock timestamps (`created_at`, `updated_at`) and the expiry sweep are
real-time behaviour outside the embedding; the remaining session fields and
the per-turn mutators are embedded directly. -/

/-- The per-session dictionary created by `get_session` (minus timestamps). -/
structure SessionData where
  session_id : String
  messages : List (String × String)
  properties_viewed : List String
  lead_info : List (String × String)
  lead_status : String
  buying_signals : List String
deriving DecidableEq

/-- The fresh session dictionary `get_session` builds on first reference. -/
def init_session (session_id : String) : SessionData :=
  { session_id := session_id
    messages := []
    properties_viewed := []
    lead_info := []
    lead_status := "new"
    buying_signals := [] }

/-- Python `dict` single-key assignment `d[k] = v` on an insertion-ordered
association list. -/
def dict_insert (d : List (String × String)) (k v : String) : List (String × String) :=
  if d.any (fun p => p.1 = k) then d.map (fun p => if p.1 = k then (k, v) else p)
  else d ++ [(k, v)]

/-- Python `d.update(updates)`: later keys overwrite earlier ones. -/
def dict_update (d : List (String × String)) : List (String × String) → List (String × String)
  | [] => d
  | (k, v) :: rest => dict_update (dict_insert d k v) rest

/-- `add_message(session_id, role, content)` restricted to one session. -/
def add_message (role content : String) (s : SessionData) : SessionData :=
  { s with messages := s.messages ++ [(role, content)] }

/-- `add_property_viewed(session_id, property_id)`: append only if absent. -/
def add_property_viewed (property_id : String) (s : SessionData) : SessionData :=
  if property_id ∈ s.properties_viewed then s
  else { s with properties_viewed := s.properties_viewed ++ [property_id] }

/-- `add_buying_signal(session_id, signal)`: append only if absent. -/
def add_buying_signal (signal : String) (s : SessionData) : SessionData :=
  if signal ∈ s.buying_signals then s
  else { s with buying_signals := s.buying_signals ++ [signal] }

/-- `update_lead_status(session_id, status)`. -/
def update_lead_status (status : String) (s : SessionData) : SessionData :=
  { s with lead_status := status }

/-- `session["lead_info"].update(new_contact_info)` as done in chat.py. -/
def merge_lead_info (info : List (String × String)) (s : SessionData) : SessionData :=
  { s with lead_info := dict_update s.lead_info info }

/-- The session-store operations a chat turn applies to one session
(get_session on an existing id only refreshes `updated_at`, a no-op here). -/
inductive TurnOp where
  | addMessage (role content : String)
  | addPropertyViewed (property_id : String)
  | addBuyingSignal (signal : String)
  | updateLeadStatus (status : String)
  | mergeLeadInfo (info : List (String × String))
  | getSession

/-- Apply one turn operation to a session. -/
def apply_op (op : TurnOp) (s : SessionData) : SessionData :=
  match op with
  | .addMessage role content => add_message role content s
  | .addPropertyViewed pid => add_property_viewed pid s
  | .addBuyingSignal sig => add_buying_signal sig s
  | .updateLeadStatus st => update_lead_status st s
  | .mergeLeadInfo info => merge_lead_info info s
  | .getSession => s

/-- Apply a sequence of turn operations in order. -/
def apply_ops (ops : List TurnOp) (s : SessionData) : SessionData :=
  ops.foldl (fun acc op => apply_op op acc) s

/-- One operation never removes a signal tag or a property id and keeps both
collections duplicate-free. -/
theorem apply_op_mono (op : TurnOp) (s : SessionData) :
    (∀ x ∈ s.buying_signals, x ∈ (apply_op op s).buying_signals)
    ∧ (∀ x ∈ s.properties_viewed, x ∈ (apply_op op s).properties_viewed)
    ∧ (s.buying_signals.Nodup → (apply_op op s).buying_signals.Nodup)
    ∧ (s.properties_viewed.Nodup → (apply_op op s).properties_viewed.Nodup) := by
  rcases op with ⟨role, content⟩ | ⟨pid⟩ | ⟨sig⟩ | ⟨st⟩ | ⟨info⟩ | _ <;>
    simp only [apply_op, add_message, add_property_viewed, add_buying_signal,
      update_lead_status, merge_lead_info]
  · exact ⟨fun x hx => hx, fun x hx => hx, id, id⟩
  · split_ifs with h
    · exact ⟨fun x hx => hx, fun x hx => hx, id, id⟩
    · refine ⟨fun x hx => hx, fun x hx => by simp [hx], id, fun hnd => ?_⟩
      simpa using List.Nodup.append hnd (List.nodup_singleton pid)
        (by simpa using fun hmem => h hmem)
  · split_ifs with h
    · exact ⟨fun x hx => hx, fun x hx => hx, id, id⟩
    · refine ⟨fun x hx => by simp [hx], fun x hx => hx, fun hnd => ?_, id⟩
      simpa using List.Nodup.append hnd (List.nodup_singleton sig)
        (by simpa using fun hmem => h hmem)
  · exact ⟨fun x hx => hx, fun x hx => hx, id, id⟩
  · exact ⟨fun x hx => hx, fun x hx => hx, id, id⟩
  · exact ⟨fun x hx => hx, fun x hx => hx, id, id⟩

/-- C3: across any sequence of turn operations, `buying_signals` and
`properties_viewed` only grow (every element present before is present
after), both stay duplicate-free when they start duplicate-free, and adding
an already-present tag or id is the identity. -/
theorem C3_session_collections_monotone (s : SessionData) (ops : List TurnOp)
    (hsig : s.buying_signals.Nodup) (hprop : s.properties_viewed.Nodup) :
    (∀ x ∈ s.buying_signals, x ∈ (apply_ops ops s).buying_signals)
    ∧ (∀ x ∈ s.properties_viewed, x ∈ (apply_ops ops s).properties_viewed)
    ∧ (apply_ops ops s).buying_signals.Nodup
    ∧ (apply_ops ops s).properties_viewed.Nodup
    ∧ (∀ sig ∈ s.buying_signals, add_buying_signal sig s = s)
    ∧ (∀ pid ∈ s.properties_viewed, add_property_viewed pid s = s) := by
  have main : ∀ (ops : List TurnOp) (s : SessionData),
      s.buying_signals.Nodup → s.properties_viewed.Nodup →
      (∀ x ∈ s.buying_signals, x ∈ (apply_ops ops s).buying_signals)
      ∧ (∀ x ∈ s.properties_viewed, x ∈ (apply_ops ops s).properties_viewed)
      ∧ (apply_ops ops s).buying_signals.Nodup
      ∧ (apply_ops ops s).properties_viewed.Nodup := by
    intro ops
    induction ops with
    | nil => exact fun s h1 h2 => ⟨fun x hx => hx, fun x hx => hx, h1, h2⟩
    | cons op rest ih =>
      intro s h1 h2
      obtain ⟨m1, m2, n1, n2⟩ := apply_op_mono op s
      obtain ⟨r1, r2, r3, r4⟩ := ih (apply_op op s) (n1 h1) (n2 h2)
      exact ⟨fun x hx => r1 x (m1 x hx), fun x hx => r2 x (m2 x hx), r3, r4⟩
  obtain ⟨a, b, c, d⟩ := main ops s hsig hprop
  refine ⟨a, b, c, d, ?_, ?_⟩
  · intro sig hsig'
    simp [add_buying_signal, hsig']
  · intro pid hpid
    simp [add_property_viewed, hpid]

/-- C3 witness: the theorem applied to a concrete session and operation
sequence, hypotheses discharged by evaluation. -/
theorem C3_session_collections_witness :
    (∀ x ∈ (init_session "s1").buying_signals,
      x ∈ (apply_ops [TurnOp.addBuyingSignal "budget_mentioned",
                      TurnOp.addBuyingSignal "budget_mentioned",
                      TurnOp.addPropertyViewed "3BR-MIA-TYPE-A"] (init_session "s1")).buying_signals)
    ∧ (∀ x ∈ (init_session "s1").properties_viewed,
      x ∈ (apply_ops [TurnOp.addBuyingSignal "budget_mentioned",
                      TurnOp.addBuyingSignal "budget_mentioned",
                      TurnOp.addPropertyViewed "3BR-MIA-TYPE-A"] (init_session "s1")).properties_viewed)
    ∧ (apply_ops [TurnOp.addBuyingSignal "budget_mentioned",
                  TurnOp.addBuyingSignal "budget_mentioned",
                  TurnOp.addPropertyViewed "3BR-MIA-TYPE-A"] (init_session "s1")).buying_signals.Nodup
    ∧ (apply_ops [TurnOp.addBuyingSignal "budget_mentioned",
                  TurnOp.addBuyingSignal "budget_mentioned",
                  TurnOp.addPropertyViewed "3BR-MIA-TYPE-A"] (init_session "s1")).properties_viewed.Nodup := by
  obtain ⟨a, b, c, d, _, _⟩ := C3_session_collections_monotone (init_session "s1")
    [TurnOp.addBuyingSignal "budget_mentioned",
     TurnOp.addBuyingSignal "budget_mentioned",
     TurnOp.addPropertyViewed "3BR-MIA-TYPE-A"]
    (by decide) (by decide)
  exact ⟨a, b, c, d⟩

/-! ### retrieval/vector_store.py — the Chroma index and its access paths

The Chroma index itself is an external service: it is abstracted as a
function from (query, k, metadata filter) to the raw ranked list of
(document, distance) hits. `similarity_search` is the same query with the
scores dropped, as in langchain. -/

/-- Metadata of an indexed document. `Option` models an absent key; for
`page_number` the ingested value itself can be `None`, so `PyVal.none`
covers both an absent key and a stored `None`. -/
structure Metadata where
  page : Option PyVal
  source_type : Option String
  path : Option String
  page_number : PyVal
  description : Option String
  filename : Option String
deriving DecidableEq

/-- A langchain `Document`: page content plus metadata. -/
structure Document where
  page_content : String
  metadata : Metadata
deriving DecidableEq

/-- The backing Chroma index, abstracted as its raw ranked search results. -/
structure VectorStore where
  search : String → ℕ → Option String → List (Document × ℚ)

/-- `vectorstore.similarity_search_with_score(query, k, filter)`. -/
def similarity_search_with_score (vs : VectorStore) (query : String) (k : ℕ)
    (filter_dict : Option String) : List (Document × ℚ) :=
  vs.search query k filter_dict

/-- `vectorstore.similarity_search(query, k, filter)`: same hits, scores
dropped. -/
def similarity_search (vs : VectorStore) (query : String) (k : ℕ)
    (filter_dict : Option String) : List Document :=
  (vs.search query k filter_dict).map Prod.fst

/-- `search_vectorstore(vectorstore, query, k, filter_dict)`. -/
def search_vectorstore (vs : VectorStore) (query : String) (k : ℕ)
    (filter_dict : Option String) : List Document :=
  similarity_search vs query k filter_dict

/-- `search_with_scores(vectorstore, query, k, filter_dict)`: queries and
then filters by `score <= (1 - settings.SIMILARITY_THRESHOLD)`. -/
def search_with_scores (vs : VectorStore) (query : String) (k : ℕ)
    (filter_dict : Option String) : List (Document × ℚ) :=
  let results := similarity_search_with_score vs query k filter_dict
  results.filter (fun ds => decide (ds.2 ≤ 1 - SIMILARITY_THRESHOLD))

/-- `get_pdf_documents(vectorstore, query, k)`. -/
def get_pdf_documents (vs : VectorStore) (query : String) (k : ℕ) : List Document :=
  search_vectorstore vs query k (some "floorplans_pdf")

/-- `get_image_documents(vectorstore, query, k)`. -/
def get_image_documents (vs : VectorStore) (query : String) (k : ℕ) : List Document :=
  search_vectorstore vs query k (some "floorplan_image")

/-! ### retrieval/rag.py — retriever, citations, image ranking -/

/-- One entry of `pdf_results` as built by `retrieve_context`. -/
structure PdfResult where
  content : String
  source : String
  page : PyVal
deriving DecidableEq

/-- One entry of `image_results` as built by `retrieve_context`. -/
structure ImageResult where
  path : String
  description : String
  page : PyVal
  filename : String
  relevance : String
deriving DecidableEq

/-- The `pdf_results` record for one document:
page is `metadata.get("page", "unknown")`. -/
def pdf_result_of_doc (doc : Document) : PdfResult :=
  { content := doc.page_content
    source := "floorplans_pdf"
    page := doc.metadata.page.getD (.str "unknown") }

/-- The `image_results` record for one document. -/
def image_result_of_doc (doc : Document) : ImageResult :=
  { path := doc.metadata.path.getD ""
    description := doc.metadata.description.getD ""
    page := doc.metadata.page_number
    filename := doc.metadata.filename.getD ""
    relevance := "floorplan" }

/-- `retrieve_context(vectorstore, query, top_k_pdf, top_k_images)`:
maps the raw pdf hits into records and keeps an image hit only when its
`path` metadata is truthy (present and non-empty). -/
def retrieve_context (vs : VectorStore) (query : String)
    (top_k_pdf top_k_images : ℕ) : List PdfResult × List ImageResult :=
  let pdf_docs := get_pdf_documents vs query top_k_pdf
  let pdf_results := pdf_docs.map pdf_result_of_doc
  let image_docs := get_image_documents vs query top_k_images
  let image_results :=
    (image_docs.filter (fun doc => doc.metadata.path.getD "" ≠ "")).map image_result_of_doc
  (pdf_results, image_results)

/-- Python string containment `sub in s`. -/
def is_substr (sub : List Char) : List Char → Bool
  | [] => sub.isEmpty
  | c :: rest => List.isPrefixOf sub (c :: rest) || is_substr sub rest

/-- `sub in s` on `String`. -/
def str_contains (s sub : String) : Bool :=
  is_substr sub.toList s.toList

/-- `extract_villa_type_from_content(content)`. -/
def extract_villa_type_from_content (content : String) : String :=
  let content_upper := py_upper content
  if str_contains content_upper "3BR" || str_contains content_upper "3 BEDROOM" then
    if str_contains content_upper "TYPE B" || str_contains content_upper "POOL" then
      "3BR MIA Type B with Pool"
    else "3BR MIA Type A"
  else if str_contains content_upper "4BR" || str_contains content_upper "4 BEDROOM" then
    if str_contains content_upper "TYPE B" || str_contains content_upper "POOL" then
      "4BR SHADEA Type B with Pool"
    else "4BR SHADEA Type A"
  else if str_contains content_upper "5BR" || str_contains content_upper "5 BEDROOM" then
    if str_contains content_upper "TYPE B" then "5BR MODEA Type B"
    else "5BR MODEA Type A"
  else "General information"

/-- A citation dictionary of `extract_citations`. -/
structure Citation where
  source : String
  page : PyVal
  villa_type : String
deriving DecidableEq

/-- The citation built for one retained hit. -/
def make_citation (r : PdfResult) : Citation :=
  { source := "floorplans_pdf"
    page := r.page
    villa_type := extract_villa_type_from_content r.content }

/-- The loop of `extract_citations` with its `seen_pages` accumulator:
a hit contributes iff its page is truthy and not seen yet. -/
def extract_citations_aux (seen_pages : List PyVal) : List PdfResult → List Citation
  | [] => []
  | r :: rest =>
      if r.page.truthy ∧ r.page ∉ seen_pages then
        make_citation r :: extract_citations_aux (r.page :: seen_pages) rest
      else extract_citations_aux seen_pages rest

/-- `extract_citations(pdf_results)`. -/
def extract_citations (pdf_results : List PdfResult) : List Citation :=
  extract_citations_aux [] pdf_results

/-- Specification-side for C5: the truthy pages of the hits in first-seen
order, each page once. -/
def first_seen_truthy_pages (seen : List PyVal) : List PdfResult → List PyVal
  | [] => []
  | r :: rest =>
      if r.page.truthy ∧ r.page ∉ seen then
        r.page :: first_seen_truthy_pages (r.page :: seen) rest
      else first_seen_truthy_pages seen rest

/-- `mentioned_pages` of `rank_images_by_relevance`: the set of truthy pages
of the retrieved pdf hits. -/
def mentioned_pages (pdf_results : List PdfResult) : List PyVal :=
  (pdf_results.filter (fun r => r.page.truthy)).map (fun r => r.page)

/-- The per-image score of `rank_images_by_relevance`. -/
def score_image (query : String) (pdf_results : List PdfResult) (img : ImageResult) : ℕ :=
  let pages := mentioned_pages pdf_results
  let s_page := if img.page ∈ pages then 10 else 0
  let description := py_lower img.description
  let query_lower := py_lower query
  let s3 := if (str_contains query_lower "3 bedroom" || str_contains query_lower "3br")
               && str_contains description "3br" then 5 else 0
  let s4 := if (str_contains query_lower "4 bedroom" || str_contains query_lower "4br")
               && str_contains description "4br" then 5 else 0
  let s5 := if (str_contains query_lower "5 bedroom" || str_contains query_lower "5br")
               && str_contains description "5br" then 5 else 0
  let s_pool := if str_contains query_lower "pool" && str_contains description "pool" then 3 else 0
  s_page + s3 + s4 + s5 + s_pool

/-- Stable descending insertion: place `x` before the first element whose
score is ≤ the score of `x`. -/
def insert_desc {α : Type} (x : ℕ × α) : List (ℕ × α) → List (ℕ × α)
  | [] => [x]
  | y :: ys => if x.1 < y.1 then y :: insert_desc x ys else x :: y :: ys

/-- Stable descending insertion sort on (score, value) pairs. -/
def sort_desc {α : Type} : List (ℕ × α) → List (ℕ × α)
  | [] => []
  | x :: xs => insert_desc x (sort_desc xs)

/-- Python `list.sort(key = f, reverse = True)`: the stable descending sort
by key. A stable sorted permutation is unique, so the insertion sort above
gives exactly the CPython result. -/
def sort_by_key_desc {α : Type} (f : α → ℕ) (l : List α) : List α :=
  (sort_desc (l.map (fun a => (f a, a)))).map Prod.snd

/-- `rank_images_by_relevance(images, query, pdf_results)`. -/
def rank_images_by_relevance (images : List ImageResult) (query : String)
    (pdf_results : List PdfResult) : List ImageResult :=
  if images.isEmpty then []
  else sort_by_key_desc (score_image query pdf_results) images

/-! ### Theorems for claim C5 -/

/-- Every emitted citation has a truthy page that was not in the seen set. -/
theorem mem_extract_citations_aux (hits : List PdfResult) :
    ∀ (seen : List PyVal) (c : Citation), c ∈ extract_citations_aux seen hits →
      c.page.truthy ∧ c.page ∉ seen := by
  induction hits with
  | nil =>
    intro seen c hc
    simp [extract_citations_aux] at hc
  | cons r rest ih =>
    intro seen c hc
    rw [extract_citations_aux] at hc
    split_ifs at hc with h
    · rcases List.mem_cons.mp hc with rfl | hc'
      · exact ⟨h.1, h.2⟩
      · obtain ⟨ht, hns⟩ := ih _ c hc'
        exact ⟨ht, fun hmem => hns (List.mem_cons_of_mem _ hmem)⟩
    · exact ih seen c hc

/-- The pages of the emitted citations are duplicate-free. -/
theorem extract_citations_aux_pages_nodup (hits : List PdfResult) :
    ∀ seen : List PyVal, ((extract_citations_aux seen hits).map (fun c => c.page)).Nodup := by
  induction hits with
  | nil =>
    intro seen
    simp [extract_citations_aux]
  | cons r rest ih =>
    intro seen
    rw [extract_citations_aux]
    split_ifs with h
    · simp only [List.map_cons, List.nodup_cons]
      refine ⟨fun hmem => ?_, ih _⟩
      obtain ⟨c, hc, hpage⟩ := List.mem_map.mp hmem
      have hnotin := (mem_extract_citations_aux rest _ c hc).2
      exact hnotin (by rw [hpage]; exact List.mem_cons_self _ _)
    · exact ih seen

/-- The pages of the emitted citations, in order, are exactly the truthy
pages of the hits in first-seen order. -/
theorem extract_citations_aux_pages_eq (hits : List PdfResult) :
    ∀ seen : List PyVal,
      (extract_citations_aux seen hits).map (fun c => c.page) =
        first_seen_truthy_pages seen hits := by
  induction hits with
  | nil => intro seen; rfl
  | cons r rest ih =>
    intro seen
    rw [extract_citations_aux, first_seen_truthy_pages]
    split_ifs with h
    · simp only [List.map_cons, ih]
      rfl
    · exact ih seen

/-- Every emitted citation is built from the first hit carrying its page. -/
theorem extract_citations_aux_first_wins (hits : List PdfResult) :
    ∀ (seen : List PyVal) (c : Citation), c ∈ extract_citations_aux seen hits →
      ∃ r, hits.find? (fun x => decide (x.page = c.page)) = some r ∧ c = make_citation r := by
  induction hits with
  | nil =>
    intro seen c hc
    simp [extract_citations_aux] at hc
  | cons r rest ih =>
    intro seen c hc
    rw [extract_citations_aux] at hc
    split_ifs at hc with h
    · rcases List.mem_cons.mp hc with rfl | hc'
      · refine ⟨r, ?_, rfl⟩
        have hp : (fun x => decide (x.page = (make_citation r).page)) r = true := by
          simp [make_citation]
        exact List.find?_cons_of_pos rest hp
      · obtain ⟨ht, hns⟩ := mem_extract_citations_aux rest _ c hc'
        obtain ⟨x, hfind, hcx⟩ := ih _ c hc'
        refine ⟨x, ?_, hcx⟩
        have hneg : ¬((fun x => decide (x.page = c.page)) r = true) := by
          simp only [decide_eq_true_eq]
          intro heq
          exact hns (heq ▸ List.mem_cons_self _ _)
        rw [List.find?_cons_of_neg rest hneg]
        exact hfind
    · obtain ⟨ht, hns⟩ := mem_extract_citations_aux rest seen c hc
      obtain ⟨x, hfind, hcx⟩ := ih seen c hc
      refine ⟨x, ?_, hcx⟩
      have hneg : ¬((fun x => decide (x.page = c.page)) r = true) := by
        simp only [decide_eq_true_eq]
        intro heq
        exact h ⟨by rw [heq]; exact ht, by rw [heq]; exact hns⟩
      rw [List.find?_cons_of_neg rest hneg]
      exact hfind

/-- C5: `extract_citations` emits at most one citation per distinct page
(its pages are duplicate-free), the pages appear in first-seen order, and
each citation is built from the first hit with that page (so that hit
supplies the villa-type label). -/
theorem C5_extract_citations_dedup_first_seen (hits : List PdfResult) :
    ((extract_citations hits).map (fun c => c.page)).Nodup
    ∧ (extract_citations hits).map (fun c => c.page) = first_seen_truthy_pages [] hits
    ∧ (∀ c ∈ extract_citations hits,
        ∃ r, hits.find? (fun x => decide (x.page = c.page)) = some r ∧ c = make_citation r) :=
  ⟨extract_citations_aux_pages_nodup hits [], extract_citations_aux_pages_eq hits [],
   fun c hc => extract_citations_aux_first_wins hits [] c hc⟩

/-- Concrete hit list for the C5 witness: page 2 occurs twice with distinct
contents, page 5 once. -/
def demo_hits : List PdfResult :=
  [{ content := "3BR MIA TYPE A layout", source := "floorplans_pdf", page := .int 2 },
   { content := "second chunk of page 2", source := "floorplans_pdf", page := .int 2 },
   { content := "5BR MODEA TYPE B", source := "floorplans_pdf", page := .int 5 }]

/-- The first hit of `demo_hits`. -/
def demo_hit1 : PdfResult :=
  { content := "3BR MIA TYPE A layout", source := "floorplans_pdf", page := .int 2 }

/-- C5 witness: the theorem applied to `demo_hits`, with the membership
hypothesis of the first-wins conjunct discharged by evaluation. -/
theorem C5_extract_citations_witness :
    ((extract_citations demo_hits).map (fun c => c.page)).Nodup
    ∧ (∃ r, demo_hits.find?
        (fun x => decide (x.page = (make_citation demo_hit1).page)) = some r ∧
        make_citation demo_hit1 = make_citation r) :=
  ⟨(C5_extract_citations_dedup_first_seen demo_hits).1,
   (C5_extract_citations_dedup_first_seen demo_hits).2.2
     (make_citation demo_hit1)
     (by decide)⟩

/-! ### Theorems for claim C6 — the stable descending sort -/

/-- Inserting permutes consing. -/
theorem insert_desc_perm {α : Type} (x : ℕ × α) (l : List (ℕ × α)) :
    (insert_desc x l).Perm (x :: l) := by
  induction l with
  | nil => rfl
  | cons y ys ih =>
    rw [insert_desc]
    split_ifs with h
    · exact (ih.cons y).trans (List.Perm.swap x y ys)
    · rfl

/-- Inserting preserves descending sortedness of the scores. -/
theorem insert_desc_sorted {α : Type} (x : ℕ × α) (l : List (ℕ × α))
    (hl : l.Pairwise (fun a b => b.1 ≤ a.1)) :
    (insert_desc x l).Pairwise (fun a b => b.1 ≤ a.1) := by
  induction l with
  | nil => simp [insert_desc]
  | cons y ys ih =>
    rw [List.pairwise_cons] at hl
    rw [insert_desc]
    split_ifs with h
    · rw [List.pairwise_cons]
      refine ⟨?_, ih hl.2⟩
      intro z hz
      rcases List.mem_cons.mp ((insert_desc_perm x ys).mem_iff.mp hz) with rfl | hzy
      · exact Nat.le_of_lt h
      · exact hl.1 z hzy
    · rw [List.pairwise_cons]
      refine ⟨?_, List.pairwise_cons.mpr hl⟩
      intro z hz
      rcases List.mem_cons.mp hz with rfl | hzy
      · exact Nat.le_of_not_lt h
      · exact Nat.le_trans (hl.1 z hzy) (Nat.le_of_not_lt h)

/-- On a sorted list, inserting then filtering one score class equals
consing then filtering: equal-score elements keep their relative order. -/
theorem insert_desc_filter {α : Type} (x : ℕ × α) (l : List (ℕ × α))
    (hl : l.Pairwise (fun a b => b.1 ≤ a.1)) (s : ℕ) :
    (insert_desc x l).filter (fun p => decide (p.1 = s)) =
      (x :: l).filter (fun p => decide (p.1 = s)) := by
  induction l with
  | nil => rfl
  | cons y ys ih =>
    rw [List.pairwise_cons] at hl
    rw [insert_desc]
    split_ifs with h
    · simp only [List.filter_cons]
      rw [ih hl.2]
      simp only [List.filter_cons]
      by_cases hx : x.1 = s <;> by_cases hy : y.1 = s
      · omega
      · simp [hx, hy]
      · simp [hx, hy]
      · simp [hx, hy]
    · rfl

/-- The insertion sort permutes its input. -/
theorem sort_desc_perm {α : Type} (l : List (ℕ × α)) : (sort_desc l).Perm l := by
  induction l with
  | nil => rfl
  | cons x xs ih => exact (insert_desc_perm x (sort_desc xs)).trans (ih.cons x)

/-- The insertion sort sorts descending by score. -/
theorem sort_desc_sorted {α : Type} (l : List (ℕ × α)) :
    (sort_desc l).Pairwise (fun a b => b.1 ≤ a.1) := by
  induction l with
  | nil => simp [sort_desc]
  | cons x xs ih => exact insert_desc_sorted x (sort_desc xs) ih

/-- Stability of the insertion sort: each score class is untouched. -/
theorem sort_desc_filter {α : Type} (l : List (ℕ × α)) (s : ℕ) :
    (sort_desc l).filter (fun p => decide (p.1 = s)) =
      l.filter (fun p => decide (p.1 = s)) := by
  induction l with
  | nil => rfl
  | cons x xs ih =>
    rw [sort_desc, insert_desc_filter x (sort_desc xs) (sort_desc_sorted xs) s,
      List.filter_cons, List.filter_cons, ih]

/-- Every pair produced by sorting the keyed list carries its key. -/
theorem sort_by_key_mem_fst {α : Type} (f : α → ℕ) (l : List α) :
    ∀ p ∈ sort_desc (l.map (fun a => (f a, a))), p.1 = f p.2 := by
  intro p hp
  have hp' := (sort_desc_perm (l.map (fun a => (f a, a)))).mem_iff.mp hp
  obtain ⟨a, _, rfl⟩ := List.mem_map.mp hp'
  rfl

/-- `sort_by_key_desc` permutes its input. -/
theorem sort_by_key_desc_perm {α : Type} (f : α → ℕ) (l : List α) :
    (sort_by_key_desc f l).Perm l := by
  unfold sort_by_key_desc
  have h := (sort_desc_perm (l.map (fun a => (f a, a)))).map Prod.snd
  rw [List.map_map] at h
  have hid : (Prod.snd ∘ fun a : α => (f a, a)) = id := rfl
  rw [hid, List.map_id] at h
  exact h

/-- `sort_by_key_desc` sorts descending by the key. -/
theorem sort_by_key_desc_sorted {α : Type} (f : α → ℕ) (l : List α) :
    ((sort_by_key_desc f l).map f).Pairwise (fun a b => b ≤ a) := by
  rw [List.pairwise_map]
  unfold sort_by_key_desc
  rw [List.pairwise_map]
  refine List.Pairwise.imp_of_mem ?_ (sort_desc_sorted (l.map (fun a => (f a, a))))
  intro p q hp hq hle
  rw [sort_by_key_mem_fst f l p hp, sort_by_key_mem_fst f l q hq] at hle
  exact hle

/-- Stability of `sort_by_key_desc`: each key class keeps its input order. -/
theorem sort_by_key_desc_filter {α : Type} (f : α → ℕ) (l : List α) (s : ℕ) :
    (sort_by_key_desc f l).filter (fun a => decide (f a = s)) =
      l.filter (fun a => decide (f a = s)) := by
  unfold sort_by_key_desc
  rw [List.filter_map]
  have h1 : (sort_desc (l.map (fun a => (f a, a)))).filter
      ((fun a => decide (f a = s)) ∘ Prod.snd) =
      (sort_desc (l.map (fun a => (f a, a)))).filter (fun p => decide (p.1 = s)) := by
    apply List.filter_congr
    intro p hp
    simp [sort_by_key_mem_fst f l p hp, Function.comp]
  have h2 : (l.map (fun a => (f a, a))).filter (fun p => decide (p.1 = s)) =
      (l.map (fun a => (f a, a))).filter ((fun a => decide (f a = s)) ∘ Prod.snd) := by
    apply List.filter_congr
    intro p hp
    obtain ⟨a, _, rfl⟩ := List.mem_map.mp hp
    simp [Function.comp]
  rw [h1, sort_desc_filter, h2, ← List.filter_map, List.map_map]
  have hid : (Prod.snd ∘ fun a : α => (f a, a)) = id := rfl
  rw [hid, List.map_id]

/-- `rank_images_by_relevance` is the stable descending sort by score. -/
theorem rank_images_eq (images : List ImageResult) (query : String)
    (pdf_results : List PdfResult) :
    rank_images_by_relevance images query pdf_results =
      sort_by_key_desc (score_image query pdf_results) images := by
  cases images with
  | nil => rfl
  | cons i is => rfl

/-- The score written without let-bindings. -/
theorem score_image_eq (query : String) (pdf_results : List PdfResult) (img : ImageResult) :
    score_image query pdf_results img =
      (if img.page ∈ mentioned_pages pdf_results then 10 else 0)
      + (if (str_contains (py_lower query) "3 bedroom" || str_contains (py_lower query) "3br")
            && str_contains (py_lower img.description) "3br" then 5 else 0)
      + (if (str_contains (py_lower query) "4 bedroom" || str_contains (py_lower query) "4br")
            && str_contains (py_lower img.description) "4br" then 5 else 0)
      + (if (str_contains (py_lower query) "5 bedroom" || str_contains (py_lower query) "5br")
            && str_contains (py_lower img.description) "5br" then 5 else 0)
      + (if str_contains (py_lower query) "pool" && str_contains (py_lower img.description) "pool"
            then 3 else 0) := rfl

/-- Two otherwise-identical images, only the first on a mentioned page:
the first scores strictly higher. -/
theorem score_image_page_bonus (query : String) (pdf_results : List PdfResult)
    (i1 i2 : ImageResult) (hdesc : i1.description = i2.description)
    (h1 : i1.page ∈ mentioned_pages pdf_results)
    (h2 : i2.page ∉ mentioned_pages pdf_results) :
    score_image query pdf_results i2 < score_image query pdf_results i1 := by
  rw [score_image_eq, score_image_eq, hdesc, if_pos h1, if_neg h2]
  omega

/-- C6: `rank_images_by_relevance` returns a permutation of its input,
sorted descending by the score (page-in-text-hits +10, each shared
bedroom-count token +5, shared pool mention +3), equal scores keep the
input order (each score class is left untouched as a subsequence), and of
two otherwise-identical images where only the first is on a page of the
text hits, the first scores strictly higher and sorts strictly before the
second. -/
theorem C6_rank_images_stable_sort (images : List ImageResult) (query : String)
    (pdf_results : List PdfResult) :
    (rank_images_by_relevance images query pdf_results).Perm images
    ∧ ((rank_images_by_relevance images query pdf_results).map
        (score_image query pdf_results)).Pairwise (fun a b => b ≤ a)
    ∧ (∀ s : ℕ, (rank_images_by_relevance images query pdf_results).filter
          (fun i => decide (score_image query pdf_results i = s)) =
        images.filter (fun i => decide (score_image query pdf_results i = s)))
    ∧ (∀ i1 i2 : ImageResult, i1.description = i2.description →
        i1.page ∈ mentioned_pages pdf_results →
        i2.page ∉ mentioned_pages pdf_results →
        score_image query pdf_results i2 < score_image query pdf_results i1
        ∧ rank_images_by_relevance [i1, i2] query pdf_results = [i1, i2]) := by
  rw [rank_images_eq]
  refine ⟨sort_by_key_desc_perm _ images, sort_by_key_desc_sorted _ images,
    fun s => sort_by_key_desc_filter _ images s, ?_⟩
  intro i1 i2 hdesc h1 h2
  have hsc := score_image_page_bonus query pdf_results i1 i2 hdesc h1 h2
  refine ⟨hsc, ?_⟩
  rw [rank_images_eq]
  unfold sort_by_key_desc
  simp only [List.map_cons, List.map_nil, sort_desc, insert_desc,
    if_neg (Nat.lt_asymm hsc)]
  try rfl

/-- Concrete pdf hit for the C6 witness: page 3 is mentioned. -/
def wpdf : List PdfResult :=
  [{ content := "3BR MIA TYPE B POOL", source := "floorplans_pdf", page := .int 3 }]

/-- Witness image on the mentioned page. -/
def wimg1 : ImageResult :=
  { path := "/data/WebP/a.webp", description := "3BR villa with pool",
    page := .int 3, filename := "a.webp", relevance := "floorplan" }

/-- Witness image on an unreferenced page, identical otherwise. -/
def wimg2 : ImageResult :=
  { path := "/data/WebP/a.webp", description := "3BR villa with pool",
    page := .int 7, filename := "a.webp", relevance := "floorplan" }

/-- C6 witness: the theorem applied to a concrete query, pdf-hit list and
image pair, hypotheses discharged by evaluation. -/
theorem C6_rank_images_witness :
    score_image "show me the 3 bedroom with pool" wpdf wimg2 <
      score_image "show me the 3 bedroom with pool" wpdf wimg1
    ∧ rank_images_by_relevance [wimg1, wimg2] "show me the 3 bedroom with pool" wpdf =
        [wimg1, wimg2] :=
  (C6_rank_images_stable_sort [] "show me the 3 bedroom with pool" wpdf).2.2.2
    wimg1 wimg2 rfl (by decide) (by decide)

/-! ### Theorems for claim C4 -/

/-- A document whose hit lies far above the distance threshold. -/
def bad_doc : Document :=
  { page_content := "villa text far from the query"
    metadata := { page := some (.int 4), source_type := some "floorplans_pdf",
                  path := Option.none, page_number := .none,
                  description := Option.none, filename := Option.none } }

/-- A store whose only raw hit has distance 0.9 (> 1 - 0.7 = 0.3). -/
def bad_store : VectorStore := ⟨fun _ _ _ => [(bad_doc, 9/10)]⟩

/-- C4 counterexample: for this store every raw pdf hit has distance above
`1 - SIMILARITY_THRESHOLD`, yet `retrieve_context` passes the hit
downstream — the Retriever applies no threshold filter, so the claim that a
hit is retained only if its distance is ≤ `1 - SIMILARITY_THRESHOLD` is
false for the hits the Retriever passes downstream. -/
theorem C4_retriever_no_filter_counterexample :
    (∀ ds ∈ bad_store.search "tell me about the villas" 5 (some "floorplans_pdf"),
      1 - SIMILARITY_THRESHOLD < ds.2)
    ∧ (retrieve_context bad_store "tell me about the villas" 5 3).1 =
        [{ content := "villa text far from the query", source := "floorplans_pdf",
           page := .int 4 }] := by
  constructor
  · intro ds hds
    have h : ds = (bad_doc, 9/10) := by simpa [bad_store] using hds
    rw [h]
    norm_num [SIMILARITY_THRESHOLD]
  · rfl

/-- C4 amended: the threshold filter `distance ≤ 1 - SIMILARITY_THRESHOLD`
is applied inside the store module's `search_with_scores` (every hit it
returns satisfies it), but the Retriever does not use that path:
`retrieve_context` maps the raw ranked hits of the unscored search
downstream with no threshold filtering. -/
theorem C4_threshold_filter_in_store_not_retriever (vs : VectorStore) (query : String)
    (k : ℕ) (filter_dict : Option String) (top_k_pdf top_k_images : ℕ) :
    (∀ ds ∈ search_with_scores vs query k filter_dict, ds.2 ≤ 1 - SIMILARITY_THRESHOLD)
    ∧ (retrieve_context vs query top_k_pdf top_k_images).1 =
        (get_pdf_documents vs query top_k_pdf).map pdf_result_of_doc := by
  constructor
  · intro ds hds
    have hds' : ds ∈ (similarity_search_with_score vs query k filter_dict).filter
        (fun ds => decide (ds.2 ≤ 1 - SIMILARITY_THRESHOLD)) := hds
    exact of_decide_eq_true (List.mem_filter.mp hds').2
  · rfl

/-- A document whose hit lies below the distance threshold. -/
def good_doc : Document :=
  { page_content := "3BR MIA TYPE A ground floor"
    metadata := { page := some (.int 2), source_type := some "floorplans_pdf",
                  path := Option.none, page_number := .none,
                  description := Option.none, filename := Option.none } }

/-- A store whose only raw hit has distance 0.2 (≤ 0.3). -/
def good_store : VectorStore := ⟨fun _ _ _ => [(good_doc, 2/10)]⟩

/-- C4 witness: the amended theorem applied to `good_store`, the membership
hypothesis discharged on its concrete surviving hit. -/
theorem C4_threshold_filter_witness :
    (2/10 : ℚ) ≤ 1 - SIMILARITY_THRESHOLD
    ∧ (retrieve_context good_store "floor plans" 5 3).1 =
        (get_pdf_documents good_store "floor plans" 5).map pdf_result_of_doc :=
  ⟨(C4_threshold_filter_in_store_not_retriever good_store "floor plans" 5
      (some "floorplans_pdf") 5 3).1 (good_doc, 2/10)
      (List.mem_filter.mpr ⟨by simp [similarity_search_with_score, good_store],
        decide_eq_true (by norm_num [SIMILARITY_THRESHOLD])⟩),
   (C4_threshold_filter_in_store_not_retriever good_store "floor plans" 5
      (some "floorplans_pdf") 5 3).2⟩

/-! ### retrieval/rag.py — remaining pure helpers used by the chat turn -/

/-- Python `str(v)` on a metadata value. -/
def PyVal.py_str : PyVal → String
  | .none => "None"
  | .int n => toString n
  | .str s => s

/-- `format_context_for_prompt(pdf_results)`. -/
def format_context_for_prompt (pdf_results : List PdfResult) : String :=
  if pdf_results = [] then "No relevant information found in floorplans document."
  else
    String.intercalate "\n---\n"
      (pdf_results.map (fun result =>
        "[Source: Floorplans PDF, Page " ++ result.page.py_str ++ "]\n"
          ++ result.content ++ "\n"))

/-- The `villa_mappings` dictionary of `identify_mentioned_properties`. -/
def villa_mappings : List (String × List String) :=
  [("3BR-MIA-TYPE-A", ["3BR", "MIA", "TYPE A"]),
   ("3BR-MIA-TYPE-B", ["3BR", "MIA", "TYPE B", "POOL"]),
   ("4BR-SHADEA-TYPE-A", ["4BR", "SHADEA", "TYPE A"]),
   ("4BR-SHADEA-TYPE-B", ["4BR", "SHADEA", "TYPE B", "POOL"]),
   ("5BR-MODEA-TYPE-A", ["5BR", "MODEA", "TYPE A"]),
   ("5BR-MODEA-TYPE-B", ["5BR", "MODEA", "TYPE B"])]

/-- `identify_mentioned_properties(response_text)`: a villa id is collected
when at least two of its keywords occur in the upper-cased reply. The ids
of `villa_mappings` are pairwise distinct, so the final Python
`list(set(properties))` only reorders a duplicate-free list; it is modelled
as first-occurrence deduplication. -/
def identify_mentioned_properties (response_text : String) : List String :=
  let response_upper := py_upper response_text
  let properties := (villa_mappings.filter (fun vm =>
    2 ≤ (vm.2.filter (fun kw => str_contains response_upper kw)).length)).map Prod.fst
  properties.dedup

/-- The `visual_keywords` of `should_include_images`. -/
def visual_keywords : List String :=
  ["floor plan", "floorplan", "layout", "show", "see", "look",
   "design", "image", "picture", "visual", "configuration",
   "how does", "what does", "ground floor", "first floor"]

/-- `should_include_images(query)`. -/
def should_include_images (query : String) : Bool :=
  let query_lower := py_lower query
  visual_keywords.any (fun keyword => str_contains query_lower keyword)

/-! ### lead/detector.py — contact extraction

`re.findall` is external; it is abstracted as
`re_findall pattern text ignorecase` returning the match (or first-group)
list, and the source's pattern strings and first-match-wins cascade are
kept. -/

/-- The email pattern of `extract_contact_info`. -/
def email_pattern : String :=
  "\\b[A-Za-z0-9._%+-]+@[A-Za-z0-9.-]+\\.[A-Z|a-z]\x7b2,\x7d\\b"

/-- The ordered phone patterns of `extract_contact_info`. -/
def phone_patterns : List String :=
  ["\\+971[\\s-]?\\d\x7b1,2\x7d[\\s-]?\\d\x7b3\x7d[\\s-]?\\d\x7b4\x7d",
   "\\+\\d\x7b1,3\x7d[\\s-]?\\d\x7b3,4\x7d[\\s-]?\\d\x7b3,4\x7d[\\s-]?\\d\x7b3,4\x7d",
   "\\d\x7b3\x7d[\\s-]?\\d\x7b3\x7d[\\s-]?\\d\x7b4\x7d"]

/-- The ordered name patterns of `extract_contact_info`. -/
def name_patterns : List String :=
  ["(?:i\x27m|i am|my name is|this is)\\s+([A-Z][a-z]+(?:\\s+[A-Z][a-z]+)*)",
   "(?:call me|contact)\\s+([A-Z][a-z]+)"]

/-- `extract_contact_info(message)`: email from the first address match,
phone from the first pattern that matches anything (first match used),
name likewise with IGNORECASE. -/
def extract_contact_info (re_findall : String → String → Bool → List String)
    (message : String) : List (String × String) :=
  let contact_info : List (String × String) := []
  let contact_info :=
    match re_findall email_pattern message false with
    | [] => contact_info
    | e :: _ => dict_insert contact_info "email" e
  let contact_info :=
    match phone_patterns.findSome? (fun pattern =>
        match re_findall pattern message false with
        | [] => Option.none
        | p :: _ => some p) with
    | some p => dict_insert contact_info "phone" p
    | Option.none => contact_info
  match name_patterns.findSome? (fun pattern =>
      match re_findall pattern message true with
      | [] => Option.none
      | m :: _ => some m) with
  | some m => dict_insert contact_info "name" m
  | Option.none => contact_info

/-! ### services/llm.py — generation -/

/-- Outcome of the external LLM provider call (the body of the `try` block
up to and including the API request): the reply text, or any raised
provider exception. -/
inductive ProviderOutcome where
  | ok (text : String) : ProviderOutcome
  | error (message : String) : ProviderOutcome

/-- The fixed apologetic fallback reply of `generate_response`. -/
def FALLBACK_RESPONSE : String :=
  "I apologize, but I\x27m having trouble processing your request right now. Please try again or contact our sales team for immediate assistance."

/-- `build_system_prompt()`. -/
def build_system_prompt : String :=
  "You are an expert real estate advisor for Al Badia Villas in Dubai Festival City. Your role is to:\n\n1. **Provide accurate information** from the floorplans document only\n2. **Never hallucinate** prices, availability, or features not in the provided context\n3. **Build trust** through factual, grounded responses\n4. **Identify buying signals** and guide naturally toward lead capture\n5. **Be conversational** and helpful without being pushy\n\n**CRITICAL RULES:**\n- ONLY use information from the provided context (floorplans PDF)\n- NEVER invent pricing or availability - always say these require agent confirmation\n- NEVER add features not documented in the floorplans\n- ALWAYS cite the page number when referencing specific villa details\n- When uncertain, acknowledge it and offer to connect with a sales agent\n\n**VILLA TYPES AVAILABLE:**\n- 3BR MIA (Type A without pool, Type B with pool)\n- 4BR SHADEA (Type A without pool, Type B with pool)\n- 5BR MODEA (Type A and Type B)\n\n**LEAD GENERATION APPROACH:**\n- Listen for budget mentions, timeline, requirements, and current situation\n- Ask qualifying questions naturally within helpful responses\n- Suggest concrete next steps (viewing, agent call, brochure)\n- Create urgency through value, not pressure\n\n**CONVERSATION STYLE:**\n- Professional yet warm and approachable\n- Confident about documented facts\n- Honest about limitations (pricing, availability)\n- Proactive in suggesting next steps\n\nWhen discussing specific villas, mention that visual floorplans are available."

/-- `build_user_prompt(query, context, conversation_history, lead_info,
buying_signals)`. -/
def build_user_prompt (query context : String)
    (conversation_history : List (String × String))
    (lead_info : List (String × String)) (buying_signals : List String) : String :=
  let parts1 : List String :=
    if context ≠ "" then
      ["**CONTEXT FROM FLOORPLANS DOCUMENT:**\n" ++ context ++ "\n\n"]
    else []
  let parts2 : List String :=
    if conversation_history ≠ [] then
      let recent_history := conversation_history.drop (conversation_history.length - 6)
      let history_text := String.intercalate "\n"
        (recent_history.map (fun msg => py_upper msg.1 ++ ": " ++ msg.2))
      ["**CONVERSATION HISTORY:**\n" ++ history_text ++ "\n\n"]
    else []
  let parts3 : List String :=
    if lead_info ≠ [] ∨ buying_signals ≠ [] then
      let lead_context_parts :=
        (if lead_info ≠ [] then
          ["Captured info: " ++ String.intercalate ", "
            (lead_info.map (fun kv => kv.1 ++ ": " ++ kv.2))]
        else [])
        ++ (if buying_signals ≠ [] then
          ["Detected signals: " ++ String.intercalate ", " buying_signals]
        else [])
      ["**LEAD CONTEXT:**\n" ++ String.intercalate " | " lead_context_parts ++ "\n\n"]
    else []
  let parts4 : List String :=
    ["**USER\x27S CURRENT QUESTION:**\n" ++ query
      ++ "\n\n**INSTRUCTIONS:**\nAnswer the user\x27s question using ONLY the information from the context above. Always cite the page number when referencing specific details. If the information is not in the context, acknowledge this and offer to connect them with a sales agent. Be conversational and helpful."]
  String.join (parts1 ++ parts2 ++ parts3 ++ parts4)

/-- `generate_response(query, context, conversation_history, lead_info,
buying_signals)`: builds both prompts, calls the provider, returns the
reply text, and on any provider error returns the fixed fallback string —
the `except` clause means no exception ever reaches the caller. -/
def generate_response (provider : String → String → ProviderOutcome)
    (query context : String) (conversation_history : List (String × String))
    (lead_info : List (String × String)) (buying_signals : List String) : String :=
  let system_prompt := build_system_prompt
  let user_prompt := build_user_prompt query context conversation_history lead_info buying_signals
  match provider system_prompt user_prompt with
  | .ok generated_text => generated_text
  | .error _ => FALLBACK_RESPONSE

/-- Python truthiness of `lead_info.get(key)`. -/
def dict_get_truthy (d : List (String × String)) (k : String) : Bool :=
  match d.lookup k with
  | some v => v ≠ ""
  | Option.none => false

/-- `generate_follow_up_prompt(intent_level, signals, lead_info,
recommended_action)`; the last argument is received but never read, as in
the source. -/
def generate_follow_up_prompt (intent_level : String) (signals : List String)
    (lead_info : List (String × String)) (recommended_action : String) : String :=
  let _ := recommended_action
  if intent_level = "high" ∧ "viewing_interest" ∈ signals then
    if ¬ dict_get_truthy lead_info "phone" then
      "I\x27d be happy to arrange a viewing for you. Could you share your phone number so our agent can coordinate the best time?"
    else "I can arrange a site visit for you. What days this week work best for your schedule?"
  else if intent_level = "high" then
    "These villas tend to move quickly. Would you like to schedule a viewing or speak with one of our property consultants?"
  else if intent_level = "medium" ∧ "specific_requirements" ∈ signals then
    if ¬ dict_get_truthy lead_info "email" then
      "I can send you detailed floor plans and specifications via email. What\x27s the best email address to reach you?"
    else "Would you like me to send you detailed floor plans and a comparison of the villa types that match your requirements?"
  else if intent_level = "medium" ∧ "comparison_intent" ∈ signals then
    "I can create a detailed comparison for you. Which specific features are most important for your decision?"
  else "What aspects of the villas would you like to know more about? I\x27m here to help with any questions."

/-! ### services/chat.py — the orchestrated chat turn -/

/-- The response dictionary of `process_chat_message`. -/
structure ChatTurnResult where
  response : String
  properties_mentioned : List String
  citations : List Citation
  images : List ImageResult
  lead_signals : LeadSignals
  follow_up_prompt : String

/-- `process_chat_message(message, session_id, context, vectorstore)`
restricted to one session, with the external regex engine, LLM provider and
vector index as parameters; returns the response dictionary and the
session state after the turn. -/
def process_chat_message
    (re_search : String → String → Bool)
    (re_findall : String → String → Bool → List String)
    (provider : String → String → ProviderOutcome)
    (vs : VectorStore)
    (message : String) (session : SessionData) : ChatTurnResult × SessionData :=
  let session := add_message "user" message session
  let new_contact_info := extract_contact_info re_findall message
  let session := if new_contact_info ≠ [] then merge_lead_info new_contact_info session
                 else session
  let conversation_history := session.messages
  let buying_signals := detect_buying_signals re_search message conversation_history
  let session := buying_signals.foldl (fun acc sig => add_buying_signal sig acc) session
  let all_signals := session.buying_signals
  let intent_score := calculate_intent_score all_signals conversation_history.length
  let lead_signals := generate_lead_signals_response all_signals intent_score conversation_history
  let retrieved := retrieve_context vs message 5 3
  let pdf_results := retrieved.1
  let image_results := retrieved.2
  let formatted_context := format_context_for_prompt pdf_results
  let response_text := generate_response provider message formatted_context
      conversation_history.dropLast session.lead_info all_signals
  let session := add_message "assistant" response_text session
  let mentioned_properties := identify_mentioned_properties response_text
  let session := mentioned_properties.foldl (fun acc prop => add_property_viewed prop acc) session
  let citations := extract_citations pdf_results
  let include_images := should_include_images message || mentioned_properties.length > 0
  let relevant_images :=
    if include_images ∧ image_results ≠ [] then
      (rank_images_by_relevance image_results message pdf_results).take 3
    else []
  let follow_up := generate_follow_up_prompt lead_signals.intent all_signals
      session.lead_info lead_signals.recommended_action
  ({ response := response_text
     properties_mentioned := mentioned_properties
     citations := citations
     images := relevant_images
     lead_signals := lead_signals
     follow_up_prompt := follow_up }, session)

/-! ### Theorems for claim C8 -/

/-- `add_buying_signal` never touches the message log. -/
theorem add_buying_signal_messages (sig : String) (s : SessionData) :
    (add_buying_signal sig s).messages = s.messages := by
  unfold add_buying_signal
  split_ifs <;> rfl

/-- `add_property_viewed` never touches the message log. -/
theorem add_property_viewed_messages (p : String) (s : SessionData) :
    (add_property_viewed p s).messages = s.messages := by
  unfold add_property_viewed
  split_ifs <;> rfl

/-- `add_property_viewed` never touches the signal set. -/
theorem add_property_viewed_buying_signals (p : String) (s : SessionData) :
    (add_property_viewed p s).buying_signals = s.buying_signals := by
  unfold add_property_viewed
  split_ifs <;> rfl

/-- `add_property_viewed` never touches the lead info. -/
theorem add_property_viewed_lead_info (p : String) (s : SessionData) :
    (add_property_viewed p s).lead_info = s.lead_info := by
  unfold add_property_viewed
  split_ifs <;> rfl

/-- Folding signal additions never touches the message log. -/
@[simp]
theorem foldl_add_buying_signal_messages (l : List String) (s : SessionData) :
    (l.foldl (fun acc sig => add_buying_signal sig acc) s).messages = s.messages := by
  induction l generalizing s with
  | nil => rfl
  | cons x xs ih => rw [List.foldl_cons, ih, add_buying_signal_messages]

/-- Folding property views never touches the message log. -/
@[simp]
theorem foldl_add_property_viewed_messages (l : List String) (s : SessionData) :
    (l.foldl (fun acc prop => add_property_viewed prop acc) s).messages = s.messages := by
  induction l generalizing s with
  | nil => rfl
  | cons x xs ih => rw [List.foldl_cons, ih, add_property_viewed_messages]

/-- Folding property views never touches the signal set. -/
@[simp]
theorem foldl_add_property_viewed_buying_signals (l : List String) (s : SessionData) :
    (l.foldl (fun acc prop => add_property_viewed prop acc) s).buying_signals =
      s.buying_signals := by
  induction l generalizing s with
  | nil => rfl
  | cons x xs ih => rw [List.foldl_cons, ih, add_property_viewed_buying_signals]

/-- Folding property views never touches the lead info. -/
@[simp]
theorem foldl_add_property_viewed_lead_info (l : List String) (s : SessionData) :
    (l.foldl (fun acc prop => add_property_viewed prop acc) s).lead_info = s.lead_info := by
  induction l generalizing s with
  | nil => rfl
  | cons x xs ih => rw [List.foldl_cons, ih, add_property_viewed_lead_info]

/-- The conditional lead-info merge never touches the message log. -/
@[simp]
theorem ite_merge_lead_info_messages (c : Prop) [Decidable c]
    (i : List (String × String)) (s : SessionData) :
    (if c then merge_lead_info i s else s).messages = s.messages := by
  split_ifs <;> rfl

/-- C8: with a provider that raises on every call, `generate_response`
returns the fixed apologetic fallback for all inputs, the chat turn still
completes with that fallback as its reply and appends it to the session
message log, and the per-turn lead signals, accumulated buying signals and
lead info are identical to what any other provider would produce — the
provider error never escapes and lead scoring and session updates proceed
as usual. -/
theorem C8_generation_failure_graceful
    (re_search : String → String → Bool)
    (re_findall : String → String → Bool → List String)
    (vs : VectorStore) (message : String) (session : SessionData) (err : String) :
    (∀ (query context : String) (hist li : List (String × String)) (bs : List String),
      generate_response (fun _ _ => ProviderOutcome.error err) query context hist li bs =
        FALLBACK_RESPONSE)
    ∧ (process_chat_message re_search re_findall (fun _ _ => ProviderOutcome.error err)
        vs message session).1.response = FALLBACK_RESPONSE
    ∧ (process_chat_message re_search re_findall (fun _ _ => ProviderOutcome.error err)
        vs message session).2.messages =
        session.messages ++ [("user", message), ("assistant", FALLBACK_RESPONSE)]
    ∧ (∀ provider : String → String → ProviderOutcome,
        (process_chat_message re_search re_findall provider vs message session).1.lead_signals =
        (process_chat_message re_search re_findall (fun _ _ => ProviderOutcome.error err)
          vs message session).1.lead_signals)
    ∧ (∀ provider : String → String → ProviderOutcome,
        (process_chat_message re_search re_findall provider vs message session).2.buying_signals =
        (process_chat_message re_search re_findall (fun _ _ => ProviderOutcome.error err)
          vs message session).2.buying_signals)
    ∧ (∀ provider : String → String → ProviderOutcome,
        (process_chat_message re_search re_findall provider vs message session).2.lead_info =
        (process_chat_message re_search re_findall (fun _ _ => ProviderOutcome.error err)
          vs message session).2.lead_info) := by
  refine ⟨fun query context hist li bs => rfl, rfl, ?_, fun provider => rfl, ?_, ?_⟩
  · simp only [process_chat_message, generate_response, add_message,
      foldl_add_property_viewed_messages, foldl_add_buying_signal_messages,
      ite_merge_lead_info_messages, List.append_assoc, List.singleton_append,
      List.cons_append, List.nil_append]
  · intro provider
    simp only [process_chat_message, add_message,
      foldl_add_property_viewed_buying_signals]
  · intro provider
    simp only [process_chat_message, add_message,
      foldl_add_property_viewed_lead_info]

end REBot
